import Mathlib

/-!
Shallow embedding of the 6502 CPU core of the NESEmulator repository
(src/nsim/hw/cpu.py, src/nsim/hw/bus.py) and proofs about it.

Modelling conventions:
* Python integers are unbounded and signed, so every register, latch and
  intermediate value is modelled as `Int`.
* Python `&`, `|`, `^`, `~`, `<<`, `>>` on ints use two's-complement
  semantics of infinite width; they are modelled by `Int.land`, `Int.lor`,
  `Int.xor`, `Int.lnot` and the `Int` shift instances, which implement the
  same semantics.  Python booleans are `int` subclasses with `True == 1`
  and `False == 0`, so a flag assignment from a comparison is modelled as
  `if cond then 1 else 0`.
* `cpu_ram` is a numpy `uint8` array of 0x2000 cells; a stored byte is the
  written value reduced modulo 256.  It is modelled as `Nat → Int`.
* A Python function that can raise (an out-of-range `cpu_read` leaves its
  local `data` unassigned and raises `UnboundLocalError`; `ZP0` touches a
  nonexistent attribute and raises `AttributeError`) is modelled with
  `Option`: `none` is an escaped exception.  An exception propagates out
  of the caller, which `Option.bind` reproduces.
-/

/-- Python `<<` on ints.  All shift amounts that occur in this code base
are nonnegative. -/
def pyShl (a b : Int) : Int := a <<< b

/-- Python `>>` on ints (arithmetic shift). -/
def pyShr (a b : Int) : Int := a >>> b

/-- Python `&` on ints (two's-complement bitwise and). -/
def pyAnd (a b : Int) : Int := Int.land a b

/-- Python `|` on ints (two's-complement bitwise or). -/
def pyOr (a b : Int) : Int := Int.lor a b

/-- Python `^` on ints (two's-complement bitwise xor). -/
def pyXor (a b : Int) : Int := Int.xor a b

/-- Python `~` on ints: `~a = -(a+1)`. -/
def pyNot (a : Int) : Int := Int.lnot a

-- Constants from the top of src/nsim/hw/cpu.py.
def STACK_ADDR : Int := 0x0100
def INIT_ADDR : Int := 0xFFFC
def INTR_ADDR : Int := 0xFFFE
def NMI_ADDR : Int := 0xFFFA
def RESET_TIME : Int := 8
def INTR_TIME : Int := 7
def NMI_TIME : Int := 8

/-- Flags in the 6502 processor (dataclass FLAGS6502).  Each field holds a
Python int (assignments store ints, masked ints or booleans). -/
structure FLAGS6502 where
  C : Int := 0
  Z : Int := 0
  I : Int := 0
  D : Int := 0
  B : Int := 0
  U : Int := 0
  V : Int := 0
  N : Int := 0
  deriving Repr, DecidableEq

/-- `FLAGS6502.extract`, translated with Python operator precedence:
`+` binds tighter than `<<`, so the source expression
`C << 0 + Z << 1 + I << 2 + D << 3 + B << 4 + U << 5 + V << 6 + N << 7`
parses as a left-nested chain of shifts by `0+Z`, `1+I`, ..., `6+N`, `7`. -/
def FLAGS6502.extract (f : FLAGS6502) : Int :=
  pyShl (pyShl (pyShl (pyShl (pyShl (pyShl (pyShl (pyShl
    f.C (0 + f.Z)) (1 + f.I)) (2 + f.D)) (3 + f.B)) (4 + f.U)) (5 + f.V)) (6 + f.N)) 7

/-- `FLAGS6502.apply`: load a byte into the eight flag fields.  Each field
receives the masked value (not the bit shifted down to position 0). -/
def FLAGS6502.apply (_self : FLAGS6502) (value : Int) : FLAGS6502 :=
  { C := pyAnd value 0b00000001
    Z := pyAnd value 0b00000010
    I := pyAnd value 0b00000100
    D := pyAnd value 0b00001000
    B := pyAnd value 0b00010000
    U := pyAnd value 0b00100000
    V := pyAnd value 0b01000000
    N := pyAnd value 0b10000000 }

/-- The mutable state of SY6502: registers, flag record, latches and the
2 KiB-mirrored work RAM the CPU was constructed with. -/
structure CPUState where
  ram : Nat → Int
  flags : FLAGS6502 := {}
  a : Int := 0
  x : Int := 0
  y : Int := 0
  stkp : Int := 0
  pc : Int := 0
  status : Int := 0
  fetched : Int := 0
  addr_abs : Int := 0
  addr_rel : Int := 0
  opcode : Int := 0
  cycle : Int := 0

/-- `SY6502.cpu_read`: only addresses 0x0000..0x1FFF assign the local
`data`; for any other address the trailing `return data` raises
`UnboundLocalError`, modelled as `none`. -/
def cpu_read (s : CPUState) (addr : Int) : Option Int :=
  if 0x0000 ≤ addr ∧ addr ≤ 0x1FFF then
    some (s.ram (pyAnd addr 0x07FF).toNat)
  else
    none

/-- `SY6502.cpu_write`: writes inside 0x0000..0x1FFF store `data` into the
uint8 array (reduced mod 256); any other write is silently ignored. -/
def cpu_write (s : CPUState) (addr data : Int) : CPUState :=
  if 0x0000 ≤ addr ∧ addr ≤ 0x1FFF then
    { s with ram := fun i => if i = (pyAnd addr 0x07FF).toNat then data % 256 else s.ram i }
  else
    s

/-- The 57 opcode methods appearing in the dispatch table. -/
inductive OpK
  | ADC | AND | ASL | BCC | BCS | BEQ | BIT | BMI | BNE | BPL | BRK | BVC
  | BVS | CLC | CLD | CLI | CLV | CMP | CPX | CPY | DEC | DEX | DEY | EOR
  | INC | INX | INY | JMP | JSR | LDA | LDX | LDY | LSR | NOP | ORA | PHA
  | PHP | PLA | PLP | ROL | ROR | RTI | RTS | SBC | SEC | SED | SEI | STA
  | STX | STY | TAX | TAY | TSX | TXA | TXS | TYA | XXX
  deriving Repr, DecidableEq

/-- The 12 addressing-mode methods appearing in the dispatch table. -/
inductive AddrK
  | IMP | IMM | ZP0 | ZPX | ZPY | REL | ABS | ABX | ABY | IND | IZX | IZY
  deriving Repr, DecidableEq

/-- `addrmode.__name__` as used by the disassembler's f-strings. -/
def addrName : AddrK → String
  | AddrK.IMP => "IMP"
  | AddrK.IMM => "IMM"
  | AddrK.ZP0 => "ZP0"
  | AddrK.ZPX => "ZPX"
  | AddrK.ZPY => "ZPY"
  | AddrK.REL => "REL"
  | AddrK.ABS => "ABS"
  | AddrK.ABX => "ABX"
  | AddrK.ABY => "ABY"
  | AddrK.IND => "IND"
  | AddrK.IZX => "IZX"
  | AddrK.IZY => "IZY"

/-- One entry of the dispatch table (dataclass Instruction). -/
structure Instr where
  name : String
  opk : OpK
  addrk : AddrK
  cycle : Int
  deriving Repr, DecidableEq

/-- Dispatch-table rows 0x00..0x0F of `SY6502.create_instructions`. -/
def instrRows0 : List Instr := [
  ⟨"BRK", OpK.BRK, AddrK.IMM, 7⟩,
  ⟨"ORA", OpK.ORA, AddrK.IZX, 6⟩,
  ⟨"???", OpK.XXX, AddrK.IMP, 2⟩,
  ⟨"???", OpK.XXX, AddrK.IMP, 8⟩,
  ⟨"???", OpK.NOP, AddrK.IMP, 3⟩,
  ⟨"ORA", OpK.ORA, AddrK.ZP0, 3⟩,
  ⟨"ASL", OpK.ASL, AddrK.ZP0, 5⟩,
  ⟨"???", OpK.XXX, AddrK.IMP, 5⟩,
  ⟨"PHP", OpK.PHP, AddrK.IMP, 3⟩,
  ⟨"ORA", OpK.ORA, AddrK.IMM, 2⟩,
  ⟨"ASL", OpK.ASL, AddrK.IMP, 2⟩,
  ⟨"???", OpK.XXX, AddrK.IMP, 2⟩,
  ⟨"???", OpK.NOP, AddrK.IMP, 4⟩,
  ⟨"ORA", OpK.ORA, AddrK.ABS, 4⟩,
  ⟨"ASL", OpK.ASL, AddrK.ABS, 6⟩,
  ⟨"???", OpK.XXX, AddrK.IMP, 6⟩]

/-- Dispatch-table rows 0x10..0x1F of `SY6502.create_instructions`. -/
def instrRows1 : List Instr := [
  ⟨"BPL", OpK.BPL, AddrK.REL, 2⟩,
  ⟨"ORA", OpK.ORA, AddrK.IZY, 5⟩,
  ⟨"???", OpK.XXX, AddrK.IMP, 2⟩,
  ⟨"???", OpK.XXX, AddrK.IMP, 8⟩,
  ⟨"???", OpK.NOP, AddrK.IMP, 4⟩,
  ⟨"ORA", OpK.ORA, AddrK.ZPX, 4⟩,
  ⟨"ASL", OpK.ASL, AddrK.ZPX, 6⟩,
  ⟨"???", OpK.XXX, AddrK.IMP, 6⟩,
  ⟨"CLC", OpK.CLC, AddrK.IMP, 2⟩,
  ⟨"ORA", OpK.ORA, AddrK.ABY, 4⟩,
  ⟨"???", OpK.NOP, AddrK.IMP, 2⟩,
  ⟨"???", OpK.XXX, AddrK.IMP, 7⟩,
  ⟨"???", OpK.NOP, AddrK.IMP, 4⟩,
  ⟨"ORA", OpK.ORA, AddrK.ABX, 4⟩,
  ⟨"ASL", OpK.ASL, AddrK.ABX, 7⟩,
  ⟨"???", OpK.XXX, AddrK.IMP, 7⟩]

/-- Dispatch-table rows 0x20..0x2F of `SY6502.create_instructions`. -/
def instrRows2 : List Instr := [
  ⟨"JSR", OpK.JSR, AddrK.ABS, 6⟩,
  ⟨"AND", OpK.AND, AddrK.IZX, 6⟩,
  ⟨"???", OpK.XXX, AddrK.IMP, 2⟩,
  ⟨"???", OpK.XXX, AddrK.IMP, 8⟩,
  ⟨"BIT", OpK.BIT, AddrK.ZP0, 3⟩,
  ⟨"AND", OpK.AND, AddrK.ZP0, 3⟩,
  ⟨"ROL", OpK.ROL, AddrK.ZP0, 5⟩,
  ⟨"???", OpK.XXX, AddrK.IMP, 5⟩,
  ⟨"PLP", OpK.PLP, AddrK.IMP, 4⟩,
  ⟨"AND", OpK.AND, AddrK.IMM, 2⟩,
  ⟨"ROL", OpK.ROL, AddrK.IMP, 2⟩,
  ⟨"???", OpK.XXX, AddrK.IMP, 2⟩,
  ⟨"BIT", OpK.BIT, AddrK.ABS, 4⟩,
  ⟨"AND", OpK.AND, AddrK.ABS, 4⟩,
  ⟨"ROL", OpK.ROL, AddrK.ABS, 6⟩,
  ⟨"???", OpK.XXX, AddrK.IMP, 6⟩]

/-- Dispatch-table rows 0x30..0x3F of `SY6502.create_instructions`. -/
def instrRows3 : List Instr := [
  ⟨"BMI", OpK.BMI, AddrK.REL, 2⟩,
  ⟨"AND", OpK.AND, AddrK.IZY, 5⟩,
  ⟨"???", OpK.XXX, AddrK.IMP, 2⟩,
  ⟨"???", OpK.XXX, AddrK.IMP, 8⟩,
  ⟨"???", OpK.NOP, AddrK.IMP, 4⟩,
  ⟨"AND", OpK.AND, AddrK.ZPX, 4⟩,
  ⟨"ROL", OpK.ROL, AddrK.ZPX, 6⟩,
  ⟨"???", OpK.XXX, AddrK.IMP, 6⟩,
  ⟨"SEC", OpK.SEC, AddrK.IMP, 2⟩,
  ⟨"AND", OpK.AND, AddrK.ABY, 4⟩,
  ⟨"???", OpK.NOP, AddrK.IMP, 2⟩,
  ⟨"???", OpK.XXX, AddrK.IMP, 7⟩,
  ⟨"???", OpK.NOP, AddrK.IMP, 4⟩,
  ⟨"AND", OpK.AND, AddrK.ABX, 4⟩,
  ⟨"ROL", OpK.ROL, AddrK.ABX, 7⟩,
  ⟨"???", OpK.XXX, AddrK.IMP, 7⟩]

/-- Dispatch-table rows 0x40..0x4F of `SY6502.create_instructions`. -/
def instrRows4 : List Instr := [
  ⟨"RTI", OpK.RTI, AddrK.IMP, 6⟩,
  ⟨"EOR", OpK.EOR, AddrK.IZX, 6⟩,
  ⟨"???", OpK.XXX, AddrK.IMP, 2⟩,
  ⟨"???", OpK.XXX, AddrK.IMP, 8⟩,
  ⟨"???", OpK.NOP, AddrK.IMP, 3⟩,
  ⟨"EOR", OpK.EOR, AddrK.ZP0, 3⟩,
  ⟨"LSR", OpK.LSR, AddrK.ZP0, 5⟩,
  ⟨"???", OpK.XXX, AddrK.IMP, 5⟩,
  ⟨"PHA", OpK.PHA, AddrK.IMP, 3⟩,
  ⟨"EOR", OpK.EOR, AddrK.IMM, 2⟩,
  ⟨"LSR", OpK.LSR, AddrK.IMP, 2⟩,
  ⟨"???", OpK.XXX, AddrK.IMP, 2⟩,
  ⟨"JMP", OpK.JMP, AddrK.ABS, 3⟩,
  ⟨"EOR", OpK.EOR, AddrK.ABS, 4⟩,
  ⟨"LSR", OpK.LSR, AddrK.ABS, 6⟩,
  ⟨"???", OpK.XXX, AddrK.IMP, 6⟩]

/-- Dispatch-table rows 0x50..0x5F of `SY6502.create_instructions`. -/
def instrRows5 : List Instr := [
  ⟨"BVC", OpK.BVC, AddrK.REL, 2⟩,
  ⟨"EOR", OpK.EOR, AddrK.IZY, 5⟩,
  ⟨"???", OpK.XXX, AddrK.IMP, 2⟩,
  ⟨"???", OpK.XXX, AddrK.IMP, 8⟩,
  ⟨"???", OpK.NOP, AddrK.IMP, 4⟩,
  ⟨"EOR", OpK.EOR, AddrK.ZPX, 4⟩,
  ⟨"LSR", OpK.LSR, AddrK.ZPX, 6⟩,
  ⟨"???", OpK.XXX, AddrK.IMP, 6⟩,
  ⟨"CLI", OpK.CLI, AddrK.IMP, 2⟩,
  ⟨"EOR", OpK.EOR, AddrK.ABY, 4⟩,
  ⟨"???", OpK.NOP, AddrK.IMP, 2⟩,
  ⟨"???", OpK.XXX, AddrK.IMP, 7⟩,
  ⟨"???", OpK.NOP, AddrK.IMP, 4⟩,
  ⟨"EOR", OpK.EOR, AddrK.ABX, 4⟩,
  ⟨"LSR", OpK.LSR, AddrK.ABX, 7⟩,
  ⟨"???", OpK.XXX, AddrK.IMP, 7⟩]

/-- Dispatch-table rows 0x60..0x6F of `SY6502.create_instructions`. -/
def instrRows6 : List Instr := [
  ⟨"RTS", OpK.RTS, AddrK.IMP, 6⟩,
  ⟨"ADC", OpK.ADC, AddrK.IZX, 6⟩,
  ⟨"???", OpK.XXX, AddrK.IMP, 2⟩,
  ⟨"???", OpK.XXX, AddrK.IMP, 8⟩,
  ⟨"???", OpK.NOP, AddrK.IMP, 3⟩,
  ⟨"ADC", OpK.ADC, AddrK.ZP0, 3⟩,
  ⟨"ROR", OpK.ROR, AddrK.ZP0, 5⟩,
  ⟨"???", OpK.XXX, AddrK.IMP, 5⟩,
  ⟨"PLA", OpK.PLA, AddrK.IMP, 4⟩,
  ⟨"ADC", OpK.ADC, AddrK.IMM, 2⟩,
  ⟨"ROR", OpK.ROR, AddrK.IMP, 2⟩,
  ⟨"???", OpK.XXX, AddrK.IMP, 2⟩,
  ⟨"JMP", OpK.JMP, AddrK.IND, 5⟩,
  ⟨"ADC", OpK.ADC, AddrK.ABS, 4⟩,
  ⟨"ROR", OpK.ROR, AddrK.ABS, 6⟩,
  ⟨"???", OpK.XXX, AddrK.IMP, 6⟩]

/-- Dispatch-table rows 0x70..0x7F of `SY6502.create_instructions`. -/
def instrRows7 : List Instr := [
  ⟨"BVS", OpK.BVS, AddrK.REL, 2⟩,
  ⟨"ADC", OpK.ADC, AddrK.IZY, 5⟩,
  ⟨"???", OpK.XXX, AddrK.IMP, 2⟩,
  ⟨"???", OpK.XXX, AddrK.IMP, 8⟩,
  ⟨"???", OpK.NOP, AddrK.IMP, 4⟩,
  ⟨"ADC", OpK.ADC, AddrK.ZPX, 4⟩,
  ⟨"ROR", OpK.ROR, AddrK.ZPX, 6⟩,
  ⟨"???", OpK.XXX, AddrK.IMP, 6⟩,
  ⟨"SEI", OpK.SEI, AddrK.IMP, 2⟩,
  ⟨"ADC", OpK.ADC, AddrK.ABY, 4⟩,
  ⟨"???", OpK.NOP, AddrK.IMP, 2⟩,
  ⟨"???", OpK.XXX, AddrK.IMP, 7⟩,
  ⟨"???", OpK.NOP, AddrK.IMP, 4⟩,
  ⟨"ADC", OpK.ADC, AddrK.ABX, 4⟩,
  ⟨"ROR", OpK.ROR, AddrK.ABX, 7⟩,
  ⟨"???", OpK.XXX, AddrK.IMP, 7⟩]

/-- Dispatch-table rows 0x80..0x8F of `SY6502.create_instructions`. -/
def instrRows8 : List Instr := [
  ⟨"???", OpK.NOP, AddrK.IMP, 2⟩,
  ⟨"STA", OpK.STA, AddrK.IZX, 6⟩,
  ⟨"???", OpK.NOP, AddrK.IMP, 2⟩,
  ⟨"???", OpK.XXX, AddrK.IMP, 6⟩,
  ⟨"STY", OpK.STY, AddrK.ZP0, 3⟩,
  ⟨"STA", OpK.STA, AddrK.ZP0, 3⟩,
  ⟨"STX", OpK.STX, AddrK.ZP0, 3⟩,
  ⟨"???", OpK.XXX, AddrK.IMP, 3⟩,
  ⟨"DEY", OpK.DEY, AddrK.IMP, 2⟩,
  ⟨"???", OpK.NOP, AddrK.IMP, 2⟩,
  ⟨"TXA", OpK.TXA, AddrK.IMP, 2⟩,
  ⟨"???", OpK.XXX, AddrK.IMP, 2⟩,
  ⟨"STY", OpK.STY, AddrK.ABS, 4⟩,
  ⟨"STA", OpK.STA, AddrK.ABS, 4⟩,
  ⟨"STX", OpK.STX, AddrK.ABS, 4⟩,
  ⟨"???", OpK.XXX, AddrK.IMP, 4⟩]

/-- Dispatch-table rows 0x90..0x9F of `SY6502.create_instructions`. -/
def instrRows9 : List Instr := [
  ⟨"BCC", OpK.BCC, AddrK.REL, 2⟩,
  ⟨"STA", OpK.STA, AddrK.IZY, 6⟩,
  ⟨"???", OpK.XXX, AddrK.IMP, 2⟩,
  ⟨"???", OpK.XXX, AddrK.IMP, 6⟩,
  ⟨"STY", OpK.STY, AddrK.ZPX, 4⟩,
  ⟨"STA", OpK.STA, AddrK.ZPX, 4⟩,
  ⟨"STX", OpK.STX, AddrK.ZPY, 4⟩,
  ⟨"???", OpK.XXX, AddrK.IMP, 4⟩,
  ⟨"TYA", OpK.TYA, AddrK.IMP, 2⟩,
  ⟨"STA", OpK.STA, AddrK.ABY, 5⟩,
  ⟨"TXS", OpK.TXS, AddrK.IMP, 2⟩,
  ⟨"???", OpK.XXX, AddrK.IMP, 5⟩,
  ⟨"???", OpK.NOP, AddrK.IMP, 5⟩,
  ⟨"STA", OpK.STA, AddrK.ABX, 5⟩,
  ⟨"???", OpK.XXX, AddrK.IMP, 5⟩,
  ⟨"???", OpK.XXX, AddrK.IMP, 5⟩]

/-- Dispatch-table rows 0xA0..0xAF of `SY6502.create_instructions`. -/
def instrRowsA : List Instr := [
  ⟨"LDY", OpK.LDY, AddrK.IMM, 2⟩,
  ⟨"LDA", OpK.LDA, AddrK.IZX, 6⟩,
  ⟨"LDX", OpK.LDX, AddrK.IMM, 2⟩,
  ⟨"???", OpK.XXX, AddrK.IMP, 6⟩,
  ⟨"LDY", OpK.LDY, AddrK.ZP0, 3⟩,
  ⟨"LDA", OpK.LDA, AddrK.ZP0, 3⟩,
  ⟨"LDX", OpK.LDX, AddrK.ZP0, 3⟩,
  ⟨"???", OpK.XXX, AddrK.IMP, 3⟩,
  ⟨"TAY", OpK.TAY, AddrK.IMP, 2⟩,
  ⟨"LDA", OpK.LDA, AddrK.IMM, 2⟩,
  ⟨"TAX", OpK.TAX, AddrK.IMP, 2⟩,
  ⟨"???", OpK.XXX, AddrK.IMP, 2⟩,
  ⟨"LDY", OpK.LDY, AddrK.ABS, 4⟩,
  ⟨"LDA", OpK.LDA, AddrK.ABS, 4⟩,
  ⟨"LDX", OpK.LDX, AddrK.ABS, 4⟩,
  ⟨"???", OpK.XXX, AddrK.IMP, 4⟩]

/-- Dispatch-table rows 0xB0..0xBF of `SY6502.create_instructions`. -/
def instrRowsB : List Instr := [
  ⟨"BCS", OpK.BCS, AddrK.REL, 2⟩,
  ⟨"LDA", OpK.LDA, AddrK.IZY, 5⟩,
  ⟨"???", OpK.XXX, AddrK.IMP, 2⟩,
  ⟨"???", OpK.XXX, AddrK.IMP, 5⟩,
  ⟨"LDY", OpK.LDY, AddrK.ZPX, 4⟩,
  ⟨"LDA", OpK.LDA, AddrK.ZPX, 4⟩,
  ⟨"LDX", OpK.LDX, AddrK.ZPY, 4⟩,
  ⟨"???", OpK.XXX, AddrK.IMP, 4⟩,
  ⟨"CLV", OpK.CLV, AddrK.IMP, 2⟩,
  ⟨"LDA", OpK.LDA, AddrK.ABY, 4⟩,
  ⟨"TSX", OpK.TSX, AddrK.IMP, 2⟩,
  ⟨"???", OpK.XXX, AddrK.IMP, 4⟩,
  ⟨"LDY", OpK.LDY, AddrK.ABX, 4⟩,
  ⟨"LDA", OpK.LDA, AddrK.ABX, 4⟩,
  ⟨"LDX", OpK.LDX, AddrK.ABY, 4⟩,
  ⟨"???", OpK.XXX, AddrK.IMP, 4⟩]

/-- Dispatch-table rows 0xC0..0xCF of `SY6502.create_instructions`. -/
def instrRowsC : List Instr := [
  ⟨"CPY", OpK.CPY, AddrK.IMM, 2⟩,
  ⟨"CMP", OpK.CMP, AddrK.IZX, 6⟩,
  ⟨"???", OpK.NOP, AddrK.IMP, 2⟩,
  ⟨"???", OpK.XXX, AddrK.IMP, 8⟩,
  ⟨"CPY", OpK.CPY, AddrK.ZP0, 3⟩,
  ⟨"CMP", OpK.CMP, AddrK.ZP0, 3⟩,
  ⟨"DEC", OpK.DEC, AddrK.ZP0, 5⟩,
  ⟨"???", OpK.XXX, AddrK.IMP, 5⟩,
  ⟨"INY", OpK.INY, AddrK.IMP, 2⟩,
  ⟨"CMP", OpK.CMP, AddrK.IMM, 2⟩,
  ⟨"DEX", OpK.DEX, AddrK.IMP, 2⟩,
  ⟨"???", OpK.XXX, AddrK.IMP, 2⟩,
  ⟨"CPY", OpK.CPY, AddrK.ABS, 4⟩,
  ⟨"CMP", OpK.CMP, AddrK.ABS, 4⟩,
  ⟨"DEC", OpK.DEC, AddrK.ABS, 6⟩,
  ⟨"???", OpK.XXX, AddrK.IMP, 6⟩]

/-- Dispatch-table rows 0xD0..0xDF of `SY6502.create_instructions`. -/
def instrRowsD : List Instr := [
  ⟨"BNE", OpK.BNE, AddrK.REL, 2⟩,
  ⟨"CMP", OpK.CMP, AddrK.IZY, 5⟩,
  ⟨"???", OpK.XXX, AddrK.IMP, 2⟩,
  ⟨"???", OpK.XXX, AddrK.IMP, 8⟩,
  ⟨"???", OpK.NOP, AddrK.IMP, 4⟩,
  ⟨"CMP", OpK.CMP, AddrK.ZPX, 4⟩,
  ⟨"DEC", OpK.DEC, AddrK.ZPX, 6⟩,
  ⟨"???", OpK.XXX, AddrK.IMP, 6⟩,
  ⟨"CLD", OpK.CLD, AddrK.IMP, 2⟩,
  ⟨"CMP", OpK.CMP, AddrK.ABY, 4⟩,
  ⟨"NOP", OpK.NOP, AddrK.IMP, 2⟩,
  ⟨"???", OpK.XXX, AddrK.IMP, 7⟩,
  ⟨"???", OpK.NOP, AddrK.IMP, 4⟩,
  ⟨"CMP", OpK.CMP, AddrK.ABX, 4⟩,
  ⟨"DEC", OpK.DEC, AddrK.ABX, 7⟩,
  ⟨"???", OpK.XXX, AddrK.IMP, 7⟩]

/-- Dispatch-table rows 0xE0..0xEF of `SY6502.create_instructions`. -/
def instrRowsE : List Instr := [
  ⟨"CPX", OpK.CPX, AddrK.IMM, 2⟩,
  ⟨"SBC", OpK.SBC, AddrK.IZX, 6⟩,
  ⟨"???", OpK.NOP, AddrK.IMP, 2⟩,
  ⟨"???", OpK.XXX, AddrK.IMP, 8⟩,
  ⟨"CPX", OpK.CPX, AddrK.ZP0, 3⟩,
  ⟨"SBC", OpK.SBC, AddrK.ZP0, 3⟩,
  ⟨"INC", OpK.INC, AddrK.ZP0, 5⟩,
  ⟨"???", OpK.XXX, AddrK.IMP, 5⟩,
  ⟨"INX", OpK.INX, AddrK.IMP, 2⟩,
  ⟨"SBC", OpK.SBC, AddrK.IMM, 2⟩,
  ⟨"NOP", OpK.NOP, AddrK.IMP, 2⟩,
  ⟨"???", OpK.SBC, AddrK.IMP, 2⟩,
  ⟨"CPX", OpK.CPX, AddrK.ABS, 4⟩,
  ⟨"SBC", OpK.SBC, AddrK.ABS, 4⟩,
  ⟨"INC", OpK.INC, AddrK.ABS, 6⟩,
  ⟨"???", OpK.XXX, AddrK.IMP, 6⟩]

/-- Dispatch-table rows 0xF0..0xFF of `SY6502.create_instructions`. -/
def instrRowsF : List Instr := [
  ⟨"BEQ", OpK.BEQ, AddrK.REL, 2⟩,
  ⟨"SBC", OpK.SBC, AddrK.IZY, 5⟩,
  ⟨"???", OpK.XXX, AddrK.IMP, 2⟩,
  ⟨"???", OpK.XXX, AddrK.IMP, 8⟩,
  ⟨"???", OpK.NOP, AddrK.IMP, 4⟩,
  ⟨"SBC", OpK.SBC, AddrK.ZPX, 4⟩,
  ⟨"INC", OpK.INC, AddrK.ZPX, 6⟩,
  ⟨"???", OpK.XXX, AddrK.IMP, 6⟩,
  ⟨"SED", OpK.SED, AddrK.IMP, 2⟩,
  ⟨"SBC", OpK.SBC, AddrK.ABY, 4⟩,
  ⟨"NOP", OpK.NOP, AddrK.IMP, 2⟩,
  ⟨"???", OpK.XXX, AddrK.IMP, 7⟩,
  ⟨"???", OpK.NOP, AddrK.IMP, 4⟩,
  ⟨"SBC", OpK.SBC, AddrK.ABX, 4⟩,
  ⟨"INC", OpK.INC, AddrK.ABX, 7⟩,
  ⟨"???", OpK.XXX, AddrK.IMP, 7⟩]

/-- The 256-entry instruction dispatch table built by
`SY6502.create_instructions`, in opcode order 0x00..0xFF, assembled
from the sixteen row lists above. -/
def instrTable : List Instr :=
  instrRows0 ++ instrRows1 ++ instrRows2 ++ instrRows3 ++ instrRows4 ++ instrRows5 ++ instrRows6 ++ instrRows7 ++
  instrRows8 ++ instrRows9 ++ instrRowsA ++ instrRowsB ++ instrRowsC ++ instrRowsD ++ instrRowsE ++ instrRowsF

/-- Table lookup `self.instructions[i]`.  Every index used at run time
is a byte 0x00..0xFF (memory reads return uint8 values and the stale
`opcode` field is only ever its initial 0). -/
def instrAt (i : Int) : Instr := instrTable.getD i.toNat ⟨"???", OpK.XXX, AddrK.IMP, 0⟩

/-- `SY6502.fetch`: unless the current instruction's addressing mode is
IMP, read the operand at `addr_abs` into the `fetched` latch.  Note the
mode test uses `self.opcode`, a field `clock` never assigns (the opcode
read in `clock` is a local variable), so it keeps its construction-time
value 0. -/
def fetch (s : CPUState) : Option CPUState :=
  if (instrAt s.opcode).addrk ≠ AddrK.IMP then
    match cpu_read s s.addr_abs with
    | none => none
    | some v => some { s with fetched := v }
  else
    some s

/-- `SY6502._jump`: shared tail of the taken-branch operations.  Adds one
cycle, forms the 16-bit target, adds another cycle on a page change, and
jumps. -/
def jump_common (s : CPUState) : CPUState :=
  let s := { s with cycle := s.cycle + 1 }
  let s := { s with addr_abs := pyAnd (s.pc + s.addr_rel) 0xFFFF }
  let s :=
    if pyAnd s.addr_abs 0xFF00 ≠ pyAnd s.pc 0xFF00 then { s with cycle := s.cycle + 1 } else s
  { s with pc := s.addr_abs }

-- Addressing modes.  Each returns the state and the extra-cycle int.

/-- Addressing mode IMP. -/
def IMP (s : CPUState) : Option (CPUState × Int) :=
  some ({ s with fetched := s.a }, 0)

/-- Addressing mode IMM. -/
def IMM (s : CPUState) : Option (CPUState × Int) :=
  some ({ s with addr_abs := s.pc, pc := s.pc + 1 }, 0)

/-- Addressing mode ZP0.  After reading the operand the source evaluates
`self.addr &= 0x00FF`; no attribute `addr` exists on SY6502, so an
`AttributeError` is raised unconditionally. -/
def ZP0 (s : CPUState) : Option (CPUState × Int) :=
  match cpu_read s s.pc with
  | none => none
  | some _v => none

/-- Addressing mode ZPX. -/
def ZPX (s : CPUState) : Option (CPUState × Int) :=
  match cpu_read s s.pc with
  | none => none
  | some v =>
    let s := { s with addr_abs := v + s.x, pc := s.pc + 1 }
    some ({ s with addr_abs := pyAnd s.addr_abs 0x00FF }, 0)

/-- Addressing mode ZPY. -/
def ZPY (s : CPUState) : Option (CPUState × Int) :=
  match cpu_read s s.pc with
  | none => none
  | some v =>
    let s := { s with addr_abs := v + s.y, pc := s.pc + 1 }
    some ({ s with addr_abs := pyAnd s.addr_abs 0x00FF }, 0)

/-- Addressing mode REL: sign-extend the offset by or-ing 0xFF00 when bit
7 is set. -/
def REL (s : CPUState) : Option (CPUState × Int) :=
  match cpu_read s s.pc with
  | none => none
  | some addr =>
    let s := { s with pc := s.pc + 1 }
    let addr := if pyAnd addr 0x80 ≠ 0 then pyOr addr 0xFF00 else addr
    some ({ s with addr_rel := addr }, 0)

/-- Addressing mode ABS. -/
def ABS (s : CPUState) : Option (CPUState × Int) :=
  match cpu_read s s.pc with
  | none => none
  | some lower =>
    let s := { s with pc := s.pc + 1 }
    match cpu_read s s.pc with
    | none => none
    | some higher =>
      let s := { s with pc := s.pc + 1 }
      some ({ s with addr_abs := pyOr (pyShl higher 8) lower }, 0)

/-- Addressing mode ABX: extra cycle if adding `x` changed the page. -/
def ABX (s : CPUState) : Option (CPUState × Int) :=
  match cpu_read s s.pc with
  | none => none
  | some lower =>
    let s := { s with pc := s.pc + 1 }
    match cpu_read s s.pc with
    | none => none
    | some higher =>
      let s := { s with pc := s.pc + 1 }
      let abs0 := pyOr (pyShl higher 8) lower
      let abs1 := abs0 + s.x
      let s := { s with addr_abs := abs1 }
      if pyAnd abs1 0xFF00 ≠ pyShl higher 8 then some (s, 1) else some (s, 0)

/-- Addressing mode ABY: extra cycle if adding `y` changed the page. -/
def ABY (s : CPUState) : Option (CPUState × Int) :=
  match cpu_read s s.pc with
  | none => none
  | some lower =>
    let s := { s with pc := s.pc + 1 }
    match cpu_read s s.pc with
    | none => none
    | some higher =>
      let s := { s with pc := s.pc + 1 }
      let abs0 := pyOr (pyShl higher 8) lower
      let abs1 := abs0 + s.y
      let s := { s with addr_abs := abs1 }
      if pyAnd abs1 0xFF00 ≠ pyShl higher 8 then some (s, 1) else some (s, 0)

/-- Addressing mode IND.  The source's page-wrap test compares the data
byte fetched at the pointer (`lower`) against 0x00FF, not the pointer's
own low byte. -/
def IND (s : CPUState) : Option (CPUState × Int) :=
  match cpu_read s s.pc with
  | none => none
  | some p_lower =>
    let s := { s with pc := s.pc + 1 }
    match cpu_read s s.pc with
    | none => none
    | some p_higher =>
      let s := { s with pc := s.pc + 1 }
      let pointed_addr := pyOr (pyShl p_higher 8) p_lower
      match cpu_read s pointed_addr with
      | none => none
      | some lower =>
        let high_addr := if lower = 0x00FF then pyAnd pointed_addr 0xFF00 else pointed_addr + 1
        match cpu_read s high_addr with
        | none => none
        | some higher =>
          some ({ s with addr_abs := pyOr (pyShl higher 8) lower }, 0)

/-- Addressing mode IZX.  The source reads the high pointer byte first
(left operand of `|` evaluates first). -/
def IZX (s : CPUState) : Option (CPUState × Int) :=
  match cpu_read s s.pc with
  | none => none
  | some value =>
    let s := { s with pc := s.pc + 1 }
    let lower_addr := pyAnd (value + s.x) 0x00FF
    let higher_addr := pyAnd (value + s.x + 1) 0x00FF
    match cpu_read s higher_addr with
    | none => none
    | some hi =>
      match cpu_read s lower_addr with
      | none => none
      | some lo =>
        some ({ s with addr_abs := pyOr (pyShl hi 8) lo }, 0)

/-- Addressing mode IZY.  The source computes the effective address and
the page-cross flag but never stores the address into `addr_abs`. -/
def IZY (s : CPUState) : Option (CPUState × Int) :=
  match cpu_read s s.pc with
  | none => none
  | some value =>
    let s := { s with pc := s.pc + 1 }
    match cpu_read s (pyAnd value 0x00FF) with
    | none => none
    | some lower =>
      match cpu_read s (pyAnd (value + 1) 0x00FF) with
      | none => none
      | some higher =>
        let addr := pyOr (pyShl higher 8) lower + s.y
        if pyAnd addr 0xFF00 ≠ pyShl higher 8 then some (s, 1) else some (s, 0)

/-- Dispatch an addressing-mode kind to its function. -/
def runAddr : AddrK → CPUState → Option (CPUState × Int)
  | AddrK.IMP => IMP
  | AddrK.IMM => IMM
  | AddrK.ZP0 => ZP0
  | AddrK.ZPX => ZPX
  | AddrK.ZPY => ZPY
  | AddrK.REL => REL
  | AddrK.ABS => ABS
  | AddrK.ABX => ABX
  | AddrK.ABY => ABY
  | AddrK.IND => IND
  | AddrK.IZX => IZX
  | AddrK.IZY => IZY

-- Opcode functions.  Each returns the state and the extra-cycle int.

/-- Opcode ADC: add fetched value and carry to the accumulator in the
unbounded int domain, then mask; flag updates as in the source. -/
def ADC (s : CPUState) : Option (CPUState × Int) :=
  match fetch s with
  | none => none
  | some s =>
    let temp := s.a + s.fetched + s.flags.C
    let fl := { s.flags with C := if 255 < temp then 1 else 0 }
    let fl := { fl with Z := if pyAnd temp 0x00FF = 0 then 1 else 0 }
    let fl := { fl with N := pyAnd temp 0x80 }
    let xor_result := pyXor s.a temp
    let not_xor_result := pyNot (pyXor s.a s.fetched)
    let fl := { fl with V := pyAnd (pyAnd xor_result not_xor_result) 0x0080 }
    some ({ s with flags := fl, a := pyAnd temp 0x00FF }, 1)

/-- Opcode AND. -/
def AND (s : CPUState) : Option (CPUState × Int) :=
  match fetch s with
  | none => none
  | some s =>
    let s := { s with a := pyAnd s.a s.fetched }
    let fl := { s.flags with Z := if s.a = 0x00 then 1 else 0 }
    let fl := { fl with N := pyAnd s.a 0x80 }
    some ({ s with flags := fl }, 1)

/-- Opcode ASL.  Its accumulator-vs-memory test compares the addressing
mode method properly, so the kinds are compared here. -/
def ASL (s : CPUState) : Option (CPUState × Int) :=
  match fetch s with
  | none => none
  | some s =>
    let temp := pyShl s.fetched 1
    let fl := { s.flags with C := if 0 < pyAnd temp 0xFF00 then 1 else 0 }
    let fl := { fl with Z := if pyAnd temp 0x00FF = 0x00 then 1 else 0 }
    let fl := { fl with N := pyAnd temp 0x80 }
    let s := { s with flags := fl }
    if (instrAt s.opcode).addrk = AddrK.IMP then
      some ({ s with a := pyAnd temp 0x00FF }, 0)
    else
      some (cpu_write s s.addr_abs (pyAnd temp 0x00FF), 0)

/-- Opcode BCC.  Branch code is inlined in the source (it predates
`_jump`) and, unlike `_jump`, does not mask the target to 16 bits. -/
def BCC (s : CPUState) : Option (CPUState × Int) :=
  if s.flags.C = 0 then
    let s := { s with cycle := s.cycle + 1 }
    let s := { s with addr_abs := s.pc + s.addr_rel }
    let s :=
      if pyAnd s.addr_abs 0xFF00 ≠ pyAnd s.pc 0xFF00 then { s with cycle := s.cycle + 1 } else s
    some ({ s with pc := s.addr_abs }, 0)
  else
    some (s, 0)

/-- Opcode BCS: branch only when the C field equals the int 1 exactly. -/
def BCS (s : CPUState) : Option (CPUState × Int) :=
  if s.flags.C = 1 then some (jump_common s, 0) else some (s, 0)

/-- Opcode BEQ: branch only when the Z field equals the int 1 exactly. -/
def BEQ (s : CPUState) : Option (CPUState × Int) :=
  if s.flags.Z = 1 then some (jump_common s, 0) else some (s, 0)

/-- Opcode BIT. -/
def BIT (s : CPUState) : Option (CPUState × Int) :=
  match fetch s with
  | none => none
  | some s =>
    let temp := pyAnd s.a s.fetched
    let fl := { s.flags with Z := if pyAnd temp 0x00FF = 0x00 then 1 else 0 }
    let fl := { fl with N := pyAnd s.fetched (pyShl 1 7) }
    let fl := { fl with V := pyAnd s.fetched (pyShl 1 6) }
    some ({ s with flags := fl }, 0)

/-- Opcode BMI: branch only when the N field equals the int 1 exactly. -/
def BMI (s : CPUState) : Option (CPUState × Int) :=
  if s.flags.N = 1 then some (jump_common s, 0) else some (s, 0)

/-- Opcode BNE: branch when the Z field equals 0. -/
def BNE (s : CPUState) : Option (CPUState × Int) :=
  if s.flags.Z = 0 then some (jump_common s, 0) else some (s, 0)

/-- Opcode BPL: branch when the N field equals 0. -/
def BPL (s : CPUState) : Option (CPUState × Int) :=
  if s.flags.N = 0 then some (jump_common s, 0) else some (s, 0)

/-- Opcode BRK.  The vector read at 0xFFFE is outside `cpu_read`'s handled
range, so the final line raises. -/
def BRK (s : CPUState) : Option (CPUState × Int) :=
  let s := { s with pc := s.pc + 1 }
  let s := { s with flags := { s.flags with I := 1 } }
  let s := cpu_write s (STACK_ADDR + s.stkp) (pyAnd (pyShr s.pc 8) 0x00FF)
  let s := { s with stkp := s.stkp - 1 }
  let s := cpu_write s (STACK_ADDR + s.stkp) (pyAnd s.pc 0x00FF)
  let s := { s with stkp := s.stkp - 1 }
  let s := { s with flags := { s.flags with B := 1 } }
  let s := cpu_write s (STACK_ADDR + s.stkp) s.status
  let s := { s with stkp := s.stkp - 1 }
  let s := { s with flags := { s.flags with B := 0 } }
  match cpu_read s INTR_ADDR with
  | none => none
  | some lo =>
    match cpu_read s 0xFFFF with
    | none => none
    | some hi =>
      some ({ s with pc := pyOr lo (pyShl hi 8) }, 0)

/-- Opcode BVC: branch when the V field equals 0. -/
def BVC (s : CPUState) : Option (CPUState × Int) :=
  if s.flags.V = 0 then some (jump_common s, 0) else some (s, 0)

/-- Opcode BVS: branch only when the V field equals the int 1 exactly. -/
def BVS (s : CPUState) : Option (CPUState × Int) :=
  if s.flags.V = 1 then some (jump_common s, 0) else some (s, 0)

/-- Opcode CLC. -/
def CLC (s : CPUState) : Option (CPUState × Int) :=
  some ({ s with flags := { s.flags with C := 0 } }, 0)

/-- Opcode CLD. -/
def CLD (s : CPUState) : Option (CPUState × Int) :=
  some ({ s with flags := { s.flags with D := 0 } }, 0)

/-- Opcode CLI. -/
def CLI (s : CPUState) : Option (CPUState × Int) :=
  some ({ s with flags := { s.flags with I := 0 } }, 0)

/-- Opcode CLV. -/
def CLV (s : CPUState) : Option (CPUState × Int) :=
  some ({ s with flags := { s.flags with V := 0 } }, 0)

/-- Opcode CMP: `a - fetched` in the unbounded domain (may be negative). -/
def CMP (s : CPUState) : Option (CPUState × Int) :=
  match fetch s with
  | none => none
  | some s =>
    let temp := s.a - s.fetched
    let fl := { s.flags with C := if 0 ≤ temp then 1 else 0 }
    let fl := { fl with Z := if pyAnd temp 0x00FF = 0x0000 then 1 else 0 }
    let fl := { fl with N := pyAnd temp 0x0080 }
    some ({ s with flags := fl }, 0)

/-- Opcode CPX. -/
def CPX (s : CPUState) : Option (CPUState × Int) :=
  match fetch s with
  | none => none
  | some s =>
    let temp := s.x - s.fetched
    let fl := { s.flags with C := if 0 ≤ temp then 1 else 0 }
    let fl := { fl with Z := if pyAnd temp 0x00FF = 0x0000 then 1 else 0 }
    let fl := { fl with N := pyAnd temp 0x0080 }
    some ({ s with flags := fl }, 0)

/-- Opcode CPY. -/
def CPY (s : CPUState) : Option (CPUState × Int) :=
  match fetch s with
  | none => none
  | some s =>
    let temp := s.y - s.fetched
    let fl := { s.flags with C := if 0 ≤ temp then 1 else 0 }
    let fl := { fl with Z := if pyAnd temp 0x00FF = 0x0000 then 1 else 0 }
    let fl := { fl with N := pyAnd temp 0x0080 }
    some ({ s with flags := fl }, 0)

/-- Opcode DEC. -/
def DEC (s : CPUState) : Option (CPUState × Int) :=
  match fetch s with
  | none => none
  | some s =>
    let temp := s.fetched - 1
    let s := cpu_write s s.addr_abs (pyAnd temp 0x00FF)
    let fl := { s.flags with Z := if pyAnd temp 0x00FF = 0x0000 then 1 else 0 }
    let fl := { fl with N := pyAnd temp 0x0080 }
    some ({ s with flags := fl }, 0)

/-- Opcode DEX: `x -= 1` with no mask back to 8 bits. -/
def DEX (s : CPUState) : Option (CPUState × Int) :=
  let s := { s with x := s.x - 1 }
  let fl := { s.flags with Z := if s.x = 0x00 then 1 else 0 }
  let fl := { fl with N := pyAnd s.x 0x80 }
  some ({ s with flags := fl }, 0)

/-- Opcode DEY: `y -= 1` with no mask back to 8 bits. -/
def DEY (s : CPUState) : Option (CPUState × Int) :=
  let s := { s with y := s.y - 1 }
  let fl := { s.flags with Z := if s.y = 0x00 then 1 else 0 }
  let fl := { fl with N := pyAnd s.y 0x80 }
  some ({ s with flags := fl }, 0)

/-- Opcode EOR. -/
def EOR (s : CPUState) : Option (CPUState × Int) :=
  match fetch s with
  | none => none
  | some s =>
    let s := { s with a := pyXor s.a s.fetched }
    let fl := { s.flags with Z := if s.a = 0x0000 then 1 else 0 }
    let fl := { fl with N := pyAnd s.a 0x0080 }
    some ({ s with flags := fl }, 0)

/-- Opcode INC. -/
def INC (s : CPUState) : Option (CPUState × Int) :=
  match fetch s with
  | none => none
  | some s =>
    let temp := s.fetched + 1
    let s := cpu_write s s.addr_abs (pyAnd temp 0x00FF)
    let fl := { s.flags with Z := if pyAnd temp 0x00FF = 0x0000 then 1 else 0 }
    let fl := { fl with N := pyAnd temp 0x0080 }
    some ({ s with flags := fl }, 0)

/-- Opcode INX (masked, unlike DEX). -/
def INX (s : CPUState) : Option (CPUState × Int) :=
  let temp := s.x + 1
  let s := { s with x := pyAnd temp 0x00FF }
  let fl := { s.flags with Z := if pyAnd temp 0x00FF = 0x0000 then 1 else 0 }
  let fl := { fl with N := pyAnd temp 0x0080 }
  some ({ s with flags := fl }, 0)

/-- Opcode INY (masked, unlike DEY). -/
def INY (s : CPUState) : Option (CPUState × Int) :=
  let temp := s.y + 1
  let s := { s with y := pyAnd temp 0x00FF }
  let fl := { s.flags with Z := if pyAnd temp 0x00FF = 0x0000 then 1 else 0 }
  let fl := { fl with N := pyAnd temp 0x0080 }
  some ({ s with flags := fl }, 0)

/-- Opcode JMP: jump to the latched effective address. -/
def JMP (s : CPUState) : Option (CPUState × Int) :=
  some ({ s with pc := s.addr_abs }, 0)

/-- Opcode JSR. -/
def JSR (s : CPUState) : Option (CPUState × Int) :=
  let s := { s with pc := s.pc - 1 }
  let s := cpu_write s (STACK_ADDR + s.stkp) (pyAnd (pyShr s.pc 8) 0x00FF)
  let s := { s with stkp := s.stkp - 1 }
  let s := cpu_write s (STACK_ADDR + s.stkp) (pyAnd s.pc 0x00FF)
  let s := { s with stkp := s.stkp - 1 }
  some ({ s with pc := s.addr_abs }, 0)

/-- Opcode LDA: load accumulator; N receives the masked value
`a & 0x80` (0 or 128). -/
def LDA (s : CPUState) : Option (CPUState × Int) :=
  match fetch s with
  | none => none
  | some s =>
    let s := { s with a := s.fetched }
    let fl := { s.flags with Z := if s.a = 0x00 then 1 else 0 }
    let fl := { fl with N := pyAnd s.a 0x80 }
    some ({ s with flags := fl }, 1)

/-- Opcode LDX. -/
def LDX (s : CPUState) : Option (CPUState × Int) :=
  match fetch s with
  | none => none
  | some s =>
    let s := { s with x := s.fetched }
    let fl := { s.flags with Z := if s.x = 0x00 then 1 else 0 }
    let fl := { fl with N := pyAnd s.x 0x80 }
    some ({ s with flags := fl }, 1)

/-- Opcode LDY. -/
def LDY (s : CPUState) : Option (CPUState × Int) :=
  match fetch s with
  | none => none
  | some s =>
    let s := { s with y := s.fetched }
    let fl := { s.flags with Z := if s.y = 0x00 then 1 else 0 }
    let fl := { fl with N := pyAnd s.y 0x80 }
    some ({ s with flags := fl }, 1)

/-- Opcode LSR. -/
def LSR (s : CPUState) : Option (CPUState × Int) :=
  match fetch s with
  | none => none
  | some s =>
    let fl := { s.flags with C := pyAnd s.fetched 0x0001 }
    let temp := pyShr s.fetched 1
    let fl := { fl with Z := if pyAnd temp 0x00FF = 0x0000 then 1 else 0 }
    let fl := { fl with N := pyAnd temp 0x0080 }
    let s := { s with flags := fl }
    if (instrAt s.opcode).addrk = AddrK.IMP then
      some ({ s with a := pyAnd temp 0x00FF }, 0)
    else
      some (cpu_write s s.addr_abs (pyAnd temp 0x00FF), 0)

/-- Opcode NOP: certain undocumented opcodes report extra-cycle
eligibility.  The test reads the stale `self.opcode` field. -/
def NOP (s : CPUState) : Option (CPUState × Int) :=
  if s.opcode = 0x1C ∨ s.opcode = 0x3C ∨ s.opcode = 0x5C ∨ s.opcode = 0x7C ∨
      s.opcode = 0xDC ∨ s.opcode = 0xFC then
    some (s, 1)
  else
    some (s, 0)

/-- Opcode ORA (returns 0 in the source, unlike the other loads). -/
def ORA (s : CPUState) : Option (CPUState × Int) :=
  match fetch s with
  | none => none
  | some s =>
    let s := { s with a := pyOr s.a s.fetched }
    let fl := { s.flags with Z := if s.a = 0x00 then 1 else 0 }
    let fl := { fl with N := pyAnd s.a 0x80 }
    some ({ s with flags := fl }, 0)

/-- Opcode PHA: push the accumulator, then decrement the stack pointer
(no modulo-256 wrap). -/
def PHA (s : CPUState) : Option (CPUState × Int) :=
  let s := cpu_write s (STACK_ADDR + s.stkp) s.a
  some ({ s with stkp := s.stkp - 1 }, 0)

/-- Opcode PHP: pushes `status | B | U` (field values), then clears B, U. -/
def PHP (s : CPUState) : Option (CPUState × Int) :=
  let s := cpu_write s (STACK_ADDR + s.stkp) (pyOr (pyOr s.status s.flags.B) s.flags.U)
  let s := { s with stkp := s.stkp - 1 }
  some ({ s with flags := { s.flags with B := 0, U := 0 } }, 0)

/-- Opcode PLA. -/
def PLA (s : CPUState) : Option (CPUState × Int) :=
  let s := { s with stkp := s.stkp + 1 }
  match cpu_read s (STACK_ADDR + s.stkp) with
  | none => none
  | some v =>
    let s := { s with a := v }
    let fl := { s.flags with Z := if s.a = 0x00 then 1 else 0 }
    let fl := { fl with N := pyAnd s.a 0x80 }
    some ({ s with flags := fl }, 0)

/-- Opcode PLP. -/
def PLP (s : CPUState) : Option (CPUState × Int) :=
  let s := { s with stkp := s.stkp + 1 }
  match cpu_read s (STACK_ADDR + s.stkp) with
  | none => none
  | some v =>
    let s := { s with status := v }
    some ({ s with flags := { s.flags with U := 1 } }, 0)

/-- The accumulator-vs-memory test in ROL and ROR compares the Instruction
dataclass itself (`self.instructions[self.opcode]`) against the bound
method `self.IMP`; a dataclass never equals a method, so the comparison is
always False. -/
def instrRecordEqMethod : Bool := false

/-- Opcode ROL.  Because of `instrRecordEqMethod` the memory branch is
always taken.  C receives the raw masked value `temp & 0xFF00`. -/
def ROL (s : CPUState) : Option (CPUState × Int) :=
  match fetch s with
  | none => none
  | some s =>
    let temp := pyOr (pyShl s.fetched 1) s.flags.C
    let fl := { s.flags with C := pyAnd temp 0xFF00 }
    let fl := { fl with Z := if pyAnd temp 0x00FF = 0x0000 then 1 else 0 }
    let fl := { fl with N := pyAnd temp 0x0080 }
    let s := { s with flags := fl }
    if instrRecordEqMethod then
      some ({ s with a := pyAnd temp 0x00FF }, 0)
    else
      some (cpu_write s s.addr_abs (pyAnd temp 0x00FF), 0)

/-- Opcode ROR.  Same record-vs-method comparison as ROL. -/
def ROR (s : CPUState) : Option (CPUState × Int) :=
  match fetch s with
  | none => none
  | some s =>
    let temp := pyOr (pyShr s.fetched 1) (pyShl s.flags.C 7)
    let fl := { s.flags with C := pyAnd s.fetched 0x01 }
    let fl := { fl with Z := if pyAnd temp 0x00FF = 0x0000 then 1 else 0 }
    let fl := { fl with N := pyAnd temp 0x0080 }
    let s := { s with flags := fl }
    if instrRecordEqMethod then
      some ({ s with a := pyAnd temp 0x00FF }, 0)
    else
      some (cpu_write s s.addr_abs (pyAnd temp 0x00FF), 0)

/-- Opcode RTI. -/
def RTI (s : CPUState) : Option (CPUState × Int) :=
  let s := { s with stkp := s.stkp + 1 }
  match cpu_read s (STACK_ADDR + s.stkp) with
  | none => none
  | some st =>
    let s := { s with status := st }
    let s := { s with status := pyAnd s.status (pyNot s.flags.B) }
    let s := { s with status := pyAnd s.status (pyNot s.flags.U) }
    let s := { s with stkp := s.stkp + 1 }
    match cpu_read s (STACK_ADDR + s.stkp) with
    | none => none
    | some lo =>
      let s := { s with pc := lo }
      let s := { s with stkp := s.stkp + 1 }
      match cpu_read s (STACK_ADDR + s.stkp) with
      | none => none
      | some hi =>
        some ({ s with pc := pyOr s.pc (pyShl hi 8) }, 0)

/-- Opcode RTS. -/
def RTS (s : CPUState) : Option (CPUState × Int) :=
  let s := { s with stkp := s.stkp + 1 }
  match cpu_read s (STACK_ADDR + s.stkp) with
  | none => none
  | some lo =>
    let s := { s with pc := lo }
    let s := { s with stkp := s.stkp + 1 }
    match cpu_read s (STACK_ADDR + s.stkp) with
    | none => none
    | some hi =>
      let s := { s with pc := pyOr s.pc (pyShl hi 8) }
      some ({ s with pc := s.pc + 1 }, 0)

/-- Opcode SBC: invert the low byte of the operand with xor and reuse the
addition data path.  C receives the raw masked value `temp & 0xFF00`. -/
def SBC (s : CPUState) : Option (CPUState × Int) :=
  match fetch s with
  | none => none
  | some s =>
    let value := pyXor s.fetched 0x00FF
    let temp := s.a + value + s.flags.C
    let fl := { s.flags with C := pyAnd temp 0xFF00 }
    let fl := { fl with Z := if pyAnd temp 0x00FF = 0 then 1 else 0 }
    let fl := { fl with N := pyAnd temp 0x80 }
    let fl := { fl with V := pyAnd (pyAnd (pyXor temp s.a) (pyXor temp value)) 0x0080 }
    some ({ s with flags := fl, a := pyAnd temp 0x00FF }, 1)

/-- Opcode SEC. -/
def SEC (s : CPUState) : Option (CPUState × Int) :=
  some ({ s with flags := { s.flags with C := 1 } }, 0)

/-- Opcode SED. -/
def SED (s : CPUState) : Option (CPUState × Int) :=
  some ({ s with flags := { s.flags with D := 1 } }, 0)

/-- Opcode SEI. -/
def SEI (s : CPUState) : Option (CPUState × Int) :=
  some ({ s with flags := { s.flags with I := 1 } }, 0)

/-- Opcode STA. -/
def STA (s : CPUState) : Option (CPUState × Int) :=
  some (cpu_write s s.addr_abs s.a, 0)

/-- Opcode STX. -/
def STX (s : CPUState) : Option (CPUState × Int) :=
  some (cpu_write s s.addr_abs s.x, 0)

/-- Opcode STY. -/
def STY (s : CPUState) : Option (CPUState × Int) :=
  some (cpu_write s s.addr_abs s.y, 0)

/-- Opcode TAX. -/
def TAX (s : CPUState) : Option (CPUState × Int) :=
  let s := { s with x := s.a }
  let fl := { s.flags with Z := if s.x = 0x00 then 1 else 0 }
  let fl := { fl with N := pyAnd s.x 0x80 }
  some ({ s with flags := fl }, 0)

/-- Opcode TAY. -/
def TAY (s : CPUState) : Option (CPUState × Int) :=
  let s := { s with y := s.a }
  let fl := { s.flags with Z := if s.y = 0x00 then 1 else 0 }
  let fl := { fl with N := pyAnd s.y 0x80 }
  some ({ s with flags := fl }, 0)

/-- Opcode TSX. -/
def TSX (s : CPUState) : Option (CPUState × Int) :=
  let s := { s with x := s.stkp }
  let fl := { s.flags with Z := if s.x = 0x00 then 1 else 0 }
  let fl := { fl with N := pyAnd s.x 0x80 }
  some ({ s with flags := fl }, 0)

/-- Opcode TXA. -/
def TXA (s : CPUState) : Option (CPUState × Int) :=
  let s := { s with a := s.x }
  let fl := { s.flags with Z := if s.a = 0x00 then 1 else 0 }
  let fl := { fl with N := pyAnd s.a 0x80 }
  some ({ s with flags := fl }, 0)

/-- Opcode TXS (no flag updates). -/
def TXS (s : CPUState) : Option (CPUState × Int) :=
  some ({ s with stkp := s.x }, 0)

/-- Opcode TYA. -/
def TYA (s : CPUState) : Option (CPUState × Int) :=
  let s := { s with a := s.y }
  let fl := { s.flags with Z := if s.a = 0x00 then 1 else 0 }
  let fl := { fl with N := pyAnd s.a 0x80 }
  some ({ s with flags := fl }, 0)

/-- Opcode XXX: illegal-opcode placeholder. -/
def XXX (s : CPUState) : Option (CPUState × Int) :=
  some (s, 0)

/-- Dispatch an opcode kind to its function. -/
def runOp : OpK → CPUState → Option (CPUState × Int)
  | OpK.ADC => ADC | OpK.AND => AND | OpK.ASL => ASL | OpK.BCC => BCC
  | OpK.BCS => BCS | OpK.BEQ => BEQ | OpK.BIT => BIT | OpK.BMI => BMI
  | OpK.BNE => BNE | OpK.BPL => BPL | OpK.BRK => BRK | OpK.BVC => BVC
  | OpK.BVS => BVS | OpK.CLC => CLC | OpK.CLD => CLD | OpK.CLI => CLI
  | OpK.CLV => CLV | OpK.CMP => CMP | OpK.CPX => CPX | OpK.CPY => CPY
  | OpK.DEC => DEC | OpK.DEX => DEX | OpK.DEY => DEY | OpK.EOR => EOR
  | OpK.INC => INC | OpK.INX => INX | OpK.INY => INY | OpK.JMP => JMP
  | OpK.JSR => JSR | OpK.LDA => LDA | OpK.LDX => LDX | OpK.LDY => LDY
  | OpK.LSR => LSR | OpK.NOP => NOP | OpK.ORA => ORA | OpK.PHA => PHA
  | OpK.PHP => PHP | OpK.PLA => PLA | OpK.PLP => PLP | OpK.ROL => ROL
  | OpK.ROR => ROR | OpK.RTI => RTI | OpK.RTS => RTS | OpK.SBC => SBC
  | OpK.SEC => SEC | OpK.SED => SED | OpK.SEI => SEI | OpK.STA => STA
  | OpK.STX => STX | OpK.STY => STY | OpK.TAX => TAX | OpK.TAY => TAY
  | OpK.TSX => TSX | OpK.TXA => TXA | OpK.TXS => TXS | OpK.TYA => TYA
  | OpK.XXX => XXX

/-- `SY6502.clock`: at an instruction boundary fetch, dispatch and execute
a whole instruction; always end by decrementing the cycle counter.  The
cycle increments performed inside taken branches are overwritten by
`cycle := new_cycle`, because `new_cycle` was captured from the table
before the opcode function ran.  The `opcode` read here is a local; the
`opcode` field of the state is never assigned. -/
def clock (s : CPUState) : Option CPUState :=
  if s.cycle = 0 then
    match cpu_read s s.pc with
    | none => none
    | some opcode =>
      let s := { s with pc := s.pc + 1 }
      let s := { s with flags := { s.flags with U := 1 } }
      let instruction := instrAt opcode
      let new_cycle := instruction.cycle
      match runAddr instruction.addrk s with
      | none => none
      | some (s, add_cycle_address) =>
        match runOp instruction.opk s with
        | none => none
        | some (s, add_cycle_operation) =>
          let new_cycle := new_cycle + pyAnd add_cycle_address add_cycle_operation
          let s := { s with cycle := new_cycle }
          some { s with cycle := s.cycle - 1 }
  else
    some { s with cycle := s.cycle - 1 }

/-- `SY6502.complete`. -/
def complete (s : CPUState) : Bool := s.cycle == 0

/-- `SY6502.reset`: zero the registers, set `stkp = 0xFD`, set
`status = 0x00 | flags.U` (the current U field), then read the reset
vector at 0xFFFC — which is outside `cpu_read`'s handled range, so the
read raises before `pc`, the latches or the cycle counter are assigned. -/
def reset (s : CPUState) : Option CPUState :=
  let s := { s with a := 0, x := 0, y := 0 }
  let s := { s with stkp := 0xFD }
  let s := { s with status := pyOr 0x00 s.flags.U }
  match cpu_read s INIT_ADDR with
  | none => none
  | some lower =>
    match cpu_read s (INIT_ADDR + 1) with
    | none => none
    | some higher =>
      let s := { s with pc := pyOr (pyShl higher 8) lower }
      let s := { s with addr_rel := 0x0000, addr_abs := 0x0000, fetched := 0x00 }
      some { s with cycle := RESET_TIME }

/-- The guard of `SY6502.irq` is `if self.flags == 0:`, which compares the
FLAGS6502 dataclass instance against the int 0.  A dataclass `__eq__`
returns NotImplemented for a non-dataclass operand, so the comparison is
always False. -/
def flagsEqInt (_f : FLAGS6502) (_n : Int) : Bool := false

/-- `SY6502.irq`: because `flagsEqInt` is always false, the body never
runs and the call changes nothing. -/
def irq (s : CPUState) : Option CPUState :=
  if flagsEqInt s.flags 0 then
    let s := cpu_write s (STACK_ADDR + s.stkp) (pyAnd (pyShr s.pc 8) 0x00FF)
    let s := { s with stkp := s.stkp - 1 }
    let s := cpu_write s (STACK_ADDR + s.stkp) (pyAnd s.pc 0x00FF)
    let s := { s with stkp := s.stkp - 1 }
    let s := { s with flags := { s.flags with B := 0, U := 1, I := 1 } }
    let s := cpu_write s (STACK_ADDR + s.stkp) s.flags.extract
    let s := { s with stkp := s.stkp - 1 }
    match cpu_read s INTR_ADDR with
    | none => none
    | some lower =>
      match cpu_read s (INTR_ADDR + 1) with
      | none => none
      | some higher =>
        let s := { s with pc := pyOr (pyShl higher 8) lower }
        some { s with cycle := INTR_TIME }
  else
    some s

/-- `SY6502.nmi`: unconditional version of the irq body; its vector read
at 0xFFFA raises after the three stack pushes. -/
def nmi (s : CPUState) : Option CPUState :=
  let s := cpu_write s (STACK_ADDR + s.stkp) (pyAnd (pyShr s.pc 8) 0x00FF)
  let s := { s with stkp := s.stkp - 1 }
  let s := cpu_write s (STACK_ADDR + s.stkp) (pyAnd s.pc 0x00FF)
  let s := { s with stkp := s.stkp - 1 }
  let s := { s with flags := { s.flags with B := 0, U := 1, I := 1 } }
  let s := cpu_write s (STACK_ADDR + s.stkp) s.flags.extract
  let s := { s with stkp := s.stkp - 1 }
  match cpu_read s NMI_ADDR with
  | none => none
  | some lower =>
    match cpu_read s (NMI_ADDR + 1) with
    | none => none
    | some higher =>
      let s := { s with pc := pyOr (pyShl higher 8) lower }
      some { s with cycle := NMI_TIME }

-- Disassembler (SY6502.disassemble).

/-- Python `f"{v:0{w}X}"`: uppercase hex, zero-padded to width `w`; a
negative value is rendered with a leading minus inside the width. -/
def hexPad (w : Nat) (v : Int) : String :=
  if v < 0 then
    let ds := (Nat.toDigits 16 (-v).toNat).map Char.toUpper
    String.mk ('-' :: (List.replicate (w - 1 - ds.length) '0' ++ ds))
  else
    let ds := (Nat.toDigits 16 v.toNat).map Char.toUpper
    String.mk (List.replicate (w - ds.length) '0' ++ ds)

/-- The operand-rendering arm of the disassembler's per-line branch on the
addressing mode: returns the operand text and the advanced address.  All
reads are the `readonly=True` variant of `cpu_read`, which behaves exactly
like `cpu_read` and mutates nothing. -/
def disasmEntry (s : CPUState) (instruction : Instr) (addr : Int) :
    Option (String × Int) :=
  match instruction.addrk with
  | AddrK.IMP => some (" \x7bIMP\x7d", addr)
  | AddrK.IMM =>
    match cpu_read s addr with
    | none => none
    | some value => some ("#$" ++ hexPad 2 value ++ " \x7bIMM\x7d", addr + 1)
  | AddrK.ZP0 | AddrK.ZPX | AddrK.ZPY | AddrK.IZX | AddrK.IZY =>
    match cpu_read s addr with
    | none => none
    | some lo => some ("$" ++ hexPad 2 lo ++ " " ++ addrName instruction.addrk, addr + 1)
  | AddrK.ABS | AddrK.ABX | AddrK.ABY | AddrK.IND =>
    match cpu_read s addr with
    | none => none
    | some lo =>
      match cpu_read s (addr + 1) with
      | none => none
      | some hi =>
        some ("$" ++ hexPad 4 (pyOr (pyShl hi 8) lo) ++ " " ++ addrName instruction.addrk,
          addr + 2)
  | AddrK.REL =>
    match cpu_read s addr with
    | none => none
    | some value =>
      some ("$" ++ hexPad 2 value ++ " [$" ++ hexPad 4 (addr + 1 + value) ++ "]" ++
        " \x7bREL\x7d", addr + 1)

/-- The `while addr <= end` loop of the disassembler.  The fuel argument
is an upper bound on the number of iterations: every iteration advances
`addr` by at least 1, so `(endv + 1 - addr).toNat` iterations suffice and
the fuel-exhausted arm is only reached when `addr > endv`, where it agrees
with the loop exit.  The state is threaded through so that the frame
property (no mutation) is a provable statement rather than a convention. -/
def disasmLoop : Nat → CPUState → Int → Int → List (Int × String) →
    Option (CPUState × List (Int × String))
  | 0, s, _addr, _endv, map => some (s, map)
  | Nat.succ fuel, s, addr, endv, map =>
    if addr ≤ endv then
      (cpu_read s addr).bind fun opcode =>
        (disasmEntry s (instrAt opcode) (addr + 1)).bind fun pr =>
          let s_inst :=
            "$" ++ hexPad 4 addr ++ ": " ++ (instrAt opcode).name ++ " " ++ pr.1
          let s_inst := if s.pc = pr.2 then "> " ++ s_inst else "  " ++ s_inst
          disasmLoop fuel s pr.2 endv (map ++ [(addr, s_inst)])
    else
      some (s, map)

/-- `SY6502.disassemble`: negative-start padding, the `map[-1]` padding
entry (a run of U+2028 line separators), then the scan loop. -/
def disassemble (s : CPUState) (start endv : Int) :
    Option (CPUState × List (Int × String)) :=
  let addr : Int := start
  let padding : Int := 0
  let (addr, padding, endv) :=
    if start < 0 then (0, -start, endv + (-start) / 4) else (addr, padding, endv)
  let map : List (Int × String) :=
    [(-1, String.mk (List.replicate ((padding / 4).toNat) (Char.ofNat 0x2028)))]
  disasmLoop (endv + 1 - addr).toNat s addr endv map

-- Concrete states used by the claim theorems.

/-- Finite RAM contents as an association list over the mirrored index
(unlisted cells read 0, like the zero-initialised numpy array). -/
def ramOf (l : List (Nat × Int)) : Nat → Int := fun i => ((l.lookup i).getD 0)

/-- A freshly constructed CPU: zeroed registers, flags and RAM, exactly
the `SY6502.__init__` state. -/
def initState : CPUState := { ram := fun _ => 0 }

/-- Z = 0 and a taken `BNE` at 0x01FD with offset +4: the page of the
post-operand pc (0x01FF) differs from the target page (0x0203), the
in-RAM analogue of the spec's 0x80FD scenario. -/
def sC1 : CPUState := { initState with
  pc := 0x01FD
  ram := ramOf [(0x1FD, 0xD0), (0x1FE, 0x04)] }

/-- `JMP ($01FF)` with the pointer's low byte 0xFF: memory holds 0x12 at
0x01FF, 0xAB at 0x0100 (the claim's no-carry source) and 0xCD at 0x0200
(the carried source). -/
def sC6 : CPUState := { initState with
  ram := ramOf [(0, 0x6C), (1, 0xFF), (2, 0x01), (0x1FF, 0x12), (0x100, 0xAB), (0x200, 0xCD)] }

/-- `ADC #$50` at 0x0200 with a = 0x50 and C = 0. -/
def sC7 : CPUState := { initState with
  pc := 0x0200
  a := 0x50
  ram := ramOf [(0x200, 0x69), (0x201, 0x50)] }

/-- A state for the standalone `ADC` application in the C7 witness:
a = 0x50, C = 0, operand 0x50 latched at `addr_abs`. -/
def sC7w : CPUState := { initState with
  a := 0x50
  addr_abs := 0x0201
  ram := ramOf [(0x201, 0x50)] }

/-- `DEX` at pc 0 with x = 0. -/
def sC8a : CPUState := { initState with ram := ramOf [(0, 0xCA)] }

/-- `PHA` at pc 0 with stkp = 0. -/
def sC8b : CPUState := { initState with ram := ramOf [(0, 0x48)] }

/-- `LDA #$80` followed by `BMI +5` at 0x0200. -/
def sC10 : CPUState := { initState with
  pc := 0x0200
  ram := ramOf [(0x200, 0xA9), (0x201, 0x80), (0x202, 0x30), (0x203, 0x05)] }

/-- A state whose N field already holds the masked value 0x80, as `LDA`
leaves it; used by the C10 witness. -/
def sC10w : CPUState := { initState with flags := { N := 0x80 } }

/-- RAM filled with the NOP opcode 0xEA; pc = 5 so no line gets the
current-line marker in a one-line disassembly. -/
def sW9 : CPUState := { initState with pc := 5, ram := fun _ => 0xEA }

/-- The map produced by `disassemble sW9 0 0`. -/
def mapW9 : List (Int × String) := [(-1, ""), (0, "  $0000: NOP  \x7bIMP\x7d")]

-- Bridging lemmas between the Python bitwise operations and Nat facts.

/-- `Int.land` on two nonnegative ints is Nat `&&&`. -/
theorem pyAnd_natCast (p q : Nat) :
    pyAnd (p : Int) (q : Int) = ((p &&& q : Nat) : Int) := rfl

/-- `Int.xor` on two nonnegative ints is Nat `^^^`. -/
theorem pyXor_natCast (p q : Nat) :
    pyXor (p : Int) (q : Int) = ((p ^^^ q : Nat) : Int) := rfl

/-- Python `~` on a nonnegative int. -/
theorem pyNot_natCast (p : Nat) : pyNot (p : Int) = Int.negSucc p := rfl

/-- `Int.land` of a nonnegative int with a negative one is a Nat set
difference, hence nonnegative. -/
theorem pyAnd_natCast_negSucc (p q : Nat) :
    pyAnd (p : Int) (Int.negSucc q) = ((Nat.ldiff p q : Nat) : Int) := rfl

/-- Masking a nonnegative int with 0xFF is reduction mod 256. -/
theorem pyAnd_255_eq_mod (z : Int) (hz : 0 ≤ z) : pyAnd z 255 = z % 256 := by
  obtain ⟨n, rfl⟩ := Int.eq_ofNat_of_zero_le hz
  rw [show (255 : Int) = ((255 : Nat) : Int) from rfl, pyAnd_natCast]
  have h := Nat.and_pow_two_sub_one_eq_mod n 8
  norm_num at h
  rw [h]
  omega

/-- Masking a nonnegative int with 0x80 is nonzero exactly when bit 7 is
set. -/
theorem pyAnd_128_ne_zero_iff (z : Int) (hz : 0 ≤ z) :
    pyAnd z 128 ≠ 0 ↔ z.testBit 7 = true := by
  obtain ⟨n, rfl⟩ := Int.eq_ofNat_of_zero_le hz
  rw [show (128 : Int) = ((128 : Nat) : Int) from rfl, pyAnd_natCast]
  have h := Nat.and_two_pow n 7
  norm_num at h
  rw [h]
  rw [show Int.testBit (n : Int) 7 = n.testBit 7 from rfl]
  cases hb : n.testBit 7 <;> simp [hb]

/-- Xor of nonnegative ints is nonnegative. -/
theorem pyXor_nonneg (p q : Int) (hp : 0 ≤ p) (hq : 0 ≤ q) : 0 ≤ pyXor p q := by
  obtain ⟨np, rfl⟩ := Int.eq_ofNat_of_zero_le hp
  obtain ⟨nq, rfl⟩ := Int.eq_ofNat_of_zero_le hq
  rw [pyXor_natCast]
  omega

/-- And with a nonnegative left operand is nonnegative. -/
theorem pyAnd_nonneg_left (p q : Int) (hp : 0 ≤ p) : 0 ≤ pyAnd p q := by
  obtain ⟨np, rfl⟩ := Int.eq_ofNat_of_zero_le hp
  cases q with
  | ofNat nq =>
    rw [show Int.ofNat nq = (nq : Int) from rfl, pyAnd_natCast]
    omega
  | negSucc nq =>
    rw [pyAnd_natCast_negSucc]
    omega

/-- And with all-ones (-1) is the identity on nonnegative ints. -/
theorem pyAnd_neg_one (n : Nat) : pyAnd (n : Int) (-1) = (n : Int) := by
  rw [show (-1 : Int) = Int.negSucc 0 from rfl, pyAnd_natCast_negSucc]
  norm_num [Nat.ldiff, Nat.bitwise_zero_right]

/-- With the IMP test failing and the operand readable, `fetch` succeeds
and only updates the `fetched` latch. -/
theorem fetch_eq_of_read (s : CPUState) (m : Int)
    (hm : cpu_read s s.addr_abs = some m)
    (hmode : (instrAt s.opcode).addrk ≠ AddrK.IMP) :
    fetch s = some { s with fetched := m } := by
  unfold fetch
  rw [if_pos hmode, hm]

/-- The state component returned by `disasmLoop` is always the state it
was given: no iteration of the scan writes to the CPU. -/
theorem disasmLoop_state_eq :
    ∀ (fuel : Nat) (s : CPUState) (addr endv : Int) (map : List (Int × String))
      (s' : CPUState) (m : List (Int × String)),
      disasmLoop fuel s addr endv map = some (s', m) → s' = s := by
  intro fuel
  induction fuel with
  | zero =>
    intro s addr endv map s' m h
    simp only [disasmLoop, Option.some.injEq, Prod.mk.injEq] at h
    exact h.1.symm
  | succ fuel ih =>
    intro s addr endv map s' m h
    rw [disasmLoop] at h
    split at h
    · cases hr : cpu_read s addr with
      | none => rw [hr] at h; simp at h
      | some opcode =>
        rw [hr, Option.some_bind] at h
        cases he : disasmEntry s (instrAt opcode) (addr + 1) with
        | none => rw [he] at h; simp at h
        | some pr =>
          rw [he, Option.some_bind] at h
          exact ih _ _ _ _ _ _ h
    · simp only [Option.some.injEq, Prod.mk.injEq] at h
      exact h.1.symm

-- Claim theorems.

/-- Claim C1.  The claim says a taken branch sets `cycles_remaining` to
base+1 (base+2 on a page cross), in particular 4 for the taken,
page-crossing BNE scenario (leaving 3 after the tick's trailing
decrement).  In the code, `clock` captures `new_cycle` from the table
before calling the opcode function and then assigns `cycle := new_cycle`,
discarding the increments `_jump` made: the taking tick on `sC1` takes
the branch (pc = 0x0203) but leaves `cycles_remaining = 1`, not 3. -/
theorem C1_branch_cycles_overwritten :
    (clock sC1).map (fun s => (s.cycle, s.pc)) = some (1, 0x0203) ∧
    (1 : Int) ≠ 2 + 1 + 1 - 1 := by
  constructor
  · decide
  · decide

/-- Claim C2.  The claim says `irq()` with I = 0 pushes pc and flags,
loads the 0xFFFE vector and sets `cycles_remaining = 7`.  The source
guards the body with `if self.flags == 0:`, comparing the FLAGS6502
dataclass against the int 0, which is always False, so `irq` never
changes any state — for every state, including every state with I = 0. -/
theorem C2_irq_never_fires : ∀ s : CPUState, irq s = some s := fun _ => rfl

/-- Claim C3.  The claim says `extract` packs C at bit 0, ..., N at bit 7,
so the assignment with only C set must pack to the byte 0x01.  Because
`+` binds tighter than `<<` in Python, the source's chained expression
shifts C by 0+1+2+3+4+5+6+7 = 28 places instead: the result is 2^28, not
a byte. -/
theorem C3_extract_not_a_byte :
    FLAGS6502.extract { C := 1 } = 0x10000000 ∧ (0x10000000 : Int) ≠ 0x01 := by
  constructor
  · decide
  · decide

/-- Claim C4.  The claim says `reset()` completes with `pc` loaded from
0xFFFC/0xFFFD, latches cleared and `cycles_remaining = 8`.  `reset` reads
the vector through `SY6502.cpu_read`, which handles only
0x0000..0x1FFF and raises `UnboundLocalError` for 0xFFFC, so `reset`
raises on every state before `pc`, the latches or the cycle counter are
assigned. -/
theorem C4_reset_always_raises : ∀ s : CPUState, reset s = none := fun _ => rfl

/-- Claim C5.  The claim says every 16-bit read returns a byte without
raising, with unmapped reads returning 0, and unmapped writes silently
ignored.  The write half holds, but `SY6502.cpu_read` has no fallback
branch: any address above 0x1FFF (0x2000, or the 0xFFFC reset vector
itself) leaves the local `data` unassigned and raises. -/
theorem C5_unmapped_read_raises :
    (∀ s : CPUState, cpu_read s 0x2000 = none) ∧
    (∀ s : CPUState, cpu_read s 0xFFFC = none) ∧
    (∀ (s : CPUState) (d : Int), cpu_write s 0x2000 d = s) :=
  ⟨fun _ => rfl, fun _ => rfl, fun _ _ => rfl⟩

/-- Claim C6.  The claim says IND fetches the effective high byte from
the start of the pointer's page whenever the pointer's low byte is 0xFF.
The source instead compares the DATA byte read at the pointer against
0x00FF.  On `sC6` (`JMP ($01FF)` with mem[0x01FF] = 0x12,
mem[0x0100] = 0xAB, mem[0x0200] = 0xCD) the claim predicts
pc = 0xAB12, but the code carries into the next page and produces
pc = 0xCD12.  The spec's literal 0x30FF scenario cannot even run:
`cpu_read` raises on 0x30FF. -/
theorem C6_IND_checks_fetched_byte :
    (clock sC6).map (fun s => s.pc) = some 0xCD12 ∧ (0xCD12 : Int) ≠ 0xAB12 ∧
    (∀ s : CPUState, cpu_read s 0x30FF = none) := by
  refine ⟨by decide, by decide, fun _ => rfl⟩

/-- Claim C8.  The claim says after any tick every register fits its
width and the stack pointer wraps modulo 256.  `DEX` decrements `x`
without masking: ticking `sC8a` (x = 0, opcode DEX) leaves x = -1,
outside 0..255.  `PHA` decrements `stkp` without wrapping: ticking
`sC8b` (stkp = 0, opcode PHA) leaves stkp = -1 instead of 255. -/
theorem C8_widths_not_preserved :
    (clock sC8a).map (fun s => s.x) = some (-1) ∧
    ¬ (0 ≤ (-1 : Int) ∧ (-1 : Int) ≤ 255) ∧
    (clock sC8b).map (fun s => s.stkp) = some (-1) ∧
    ((-1 : Int) ≠ 255) := by
  refine ⟨by decide, by decide, by decide, by decide⟩

/-- Claim C9.  `disassemble` never mutates CPU or bus state: whenever it
returns, the state it hands back is the one it was given, and a second
call from that state returns the identical address-to-text map. -/
theorem C9_disassemble_pure (s : CPUState) (start endv : Int)
    (s' : CPUState) (m : List (Int × String))
    (h : disassemble s start endv = some (s', m)) :
    s' = s ∧ disassemble s' start endv = some (s', m) := by
  have hs : s' = s := by
    unfold disassemble at h
    exact disasmLoop_state_eq _ _ _ _ _ _ _ h
  exact ⟨hs, hs ▸ h⟩

/-- Witness for C9 at a concrete input: a NOP-filled RAM disassembled
over [0, 0], returning the unchanged state and the two-entry map (the
`map[-1]` padding entry plus the rendered line). -/
theorem C9_witness :
    sW9 = sW9 ∧ disassemble sW9 0 0 = some (sW9, mapW9) :=
  C9_disassemble_pure sW9 0 0 sW9 mapW9 (by rfl)

/-- Claim C10.  The four set-flag branches compare their flag field
against the int 1 exactly; flag-writing operations store N as the masked
value `result & 0x80` (0 or 128).  On `sC10`, `LDA #$80` loads a value
with bit 7 set yet leaves N = 128, and the immediately following `BMI`
does not branch: after the three ticks that retire both instructions,
pc = 0x0204 (fall-through), not the branch target 0x0209. -/
theorem C10_branches_require_exactly_one :
    (∀ s : CPUState, s.flags.N ≠ 1 → BMI s = some (s, 0)) ∧
    (∀ s : CPUState, s.flags.C ≠ 1 → BCS s = some (s, 0)) ∧
    (∀ s : CPUState, s.flags.Z ≠ 1 → BEQ s = some (s, 0)) ∧
    (∀ s : CPUState, s.flags.V ≠ 1 → BVS s = some (s, 0)) ∧
    (clock sC10).map (fun s => (s.a, s.flags.N, s.flags.Z)) = some (0x80, 0x80, 0) ∧
    ((0x80 : Int) ≠ 1) ∧
    ((((clock sC10).bind clock).bind clock).map (fun s => s.pc) = some 0x0204) ∧
    ((0x0204 : Int) ≠ 0x0209) := by
  refine ⟨?_, ?_, ?_, ?_, by decide, by decide, by decide, by decide⟩
  · intro s h; unfold BMI; rw [if_neg h]
  · intro s h; unfold BCS; rw [if_neg h]
  · intro s h; unfold BEQ; rw [if_neg h]
  · intro s h; unfold BVS; rw [if_neg h]

/-- Witness for C10 at a concrete input: with `N` holding the masked
value 0x80 (as `LDA #$80` leaves it), `BMI` does not branch. -/
theorem C10_witness : BMI sC10w = some (sC10w, 0) :=
  C10_branches_require_exactly_one.1 sC10w (by decide)

/-- Claim C7.  ADC computes `t = a + fetched + C` in the unbounded int
domain and sets `C = (t > 0xFF)`, `Z = ((t & 0xFF) == 0)`, N to the bit-7
component of `t` (stored as the masked value `t & 0x80`, nonzero exactly
when bit 7 of `t` is set), V to the bit-7 component of
`(a XOR t) AND NOT (a XOR fetched)`, and `a = t & 0xFF`; in particular
executing `ADC #$50` from a = 0x50, C = 0 through `clock` yields
a = 0xA0 with N set (0x80), V set (0x80), C clear and Z clear. -/
theorem C7_ADC_contract :
    (∀ (s : CPUState) (m : Int),
      cpu_read s s.addr_abs = some m →
      (instrAt s.opcode).addrk ≠ AddrK.IMP →
      0 ≤ s.a → s.a ≤ 255 → 0 ≤ m → m ≤ 255 →
      (s.flags.C = 0 ∨ s.flags.C = 1) →
      ∃ s', ADC s = some (s', 1) ∧
        s'.a = pyAnd (s.a + m + s.flags.C) 0x00FF ∧
        s'.a = (s.a + m + s.flags.C) % 256 ∧
        s'.flags.C = (if 0xFF < s.a + m + s.flags.C then 1 else 0) ∧
        s'.flags.Z = (if (s.a + m + s.flags.C) % 256 = 0 then 1 else 0) ∧
        s'.flags.N = pyAnd (s.a + m + s.flags.C) 0x80 ∧
        (s'.flags.N ≠ 0 ↔ (s.a + m + s.flags.C).testBit 7 = true) ∧
        s'.flags.V =
          pyAnd (pyAnd (pyXor s.a (s.a + m + s.flags.C)) (pyNot (pyXor s.a m))) 0x0080 ∧
        (s'.flags.V ≠ 0 ↔
          (pyAnd (pyXor s.a (s.a + m + s.flags.C)) (pyNot (pyXor s.a m))).testBit 7 = true)) ∧
    (clock sC7).map (fun s => (s.a, s.flags.N, s.flags.C, s.flags.Z, s.pc))
      = some (0xA0, 0x80, 0, 0, 0x0202) ∧
    (clock sC7).map (fun s => s.flags.V) = some 0x80 := by
  refine ⟨?_, by decide, ?_⟩
  · intro s m hm hmode ha0 ha1 hm0 hm1 hc
    have ht : 0 ≤ s.a + m + s.flags.C := by rcases hc with hc | hc <;> omega
    have hfetch := fetch_eq_of_read s m hm hmode
    have hADC : ADC s = some ({ s with
        fetched := m
        flags := { s.flags with
          C := if 255 < s.a + m + s.flags.C then 1 else 0
          Z := if pyAnd (s.a + m + s.flags.C) 0x00FF = 0 then 1 else 0
          N := pyAnd (s.a + m + s.flags.C) 0x80
          V := pyAnd (pyAnd (pyXor s.a (s.a + m + s.flags.C)) (pyNot (pyXor s.a m))) 0x0080 }
        a := pyAnd (s.a + m + s.flags.C) 0x00FF }, 1) := by
      unfold ADC
      rw [hfetch]
    refine ⟨_, hADC, rfl, ?_, rfl, ?_, rfl, ?_, rfl, ?_⟩
    · exact pyAnd_255_eq_mod _ ht
    · show (if pyAnd (s.a + m + s.flags.C) 0x00FF = 0 then (1 : Int) else 0) = _
      rw [pyAnd_255_eq_mod _ ht]
    · exact pyAnd_128_ne_zero_iff _ ht
    · exact pyAnd_128_ne_zero_iff _
        (pyAnd_nonneg_left _ _ (pyXor_nonneg _ _ ha0 ht))
  · have hV : (clock sC7).map (fun s => s.flags.V) =
        some (pyAnd (pyAnd (pyXor 0x50 0xA0) (pyNot (pyXor 0x50 0x50))) 0x0080) := rfl
    rw [show pyXor (0x50 : Int) (0x50 : Int) = 0 from by decide,
      show pyNot (0 : Int) = -1 from by decide,
      show pyXor (0x50 : Int) (0xA0 : Int) = ((0xF0 : Nat) : Int) from by decide,
      pyAnd_neg_one] at hV
    rw [show pyAnd ((0xF0 : Nat) : Int) 0x0080 = 0x80 from by decide] at hV
    exact hV

/-- Witness for C7 at a concrete input: `ADC` applied to `sC7w`
(a = 0x50, C = 0, operand byte 0x50 at the latched address). -/
theorem C7_witness :
    ∃ s', ADC sC7w = some (s', 1) ∧
      s'.a = pyAnd (sC7w.a + 0x50 + sC7w.flags.C) 0x00FF ∧
      s'.a = (sC7w.a + 0x50 + sC7w.flags.C) % 256 ∧
      s'.flags.C = (if 0xFF < sC7w.a + 0x50 + sC7w.flags.C then 1 else 0) ∧
      s'.flags.Z = (if (sC7w.a + 0x50 + sC7w.flags.C) % 256 = 0 then 1 else 0) ∧
      s'.flags.N = pyAnd (sC7w.a + 0x50 + sC7w.flags.C) 0x80 ∧
      (s'.flags.N ≠ 0 ↔ (sC7w.a + 0x50 + sC7w.flags.C).testBit 7 = true) ∧
      s'.flags.V = pyAnd (pyAnd (pyXor sC7w.a (sC7w.a + 0x50 + sC7w.flags.C))
          (pyNot (pyXor sC7w.a 0x50))) 0x0080 ∧
      (s'.flags.V ≠ 0 ↔
        (pyAnd (pyXor sC7w.a (sC7w.a + 0x50 + sC7w.flags.C))
          (pyNot (pyXor sC7w.a 0x50))).testBit 7 = true) :=
  C7_ADC_contract.1 sC7w 0x50 (by decide) (by decide) (by decide) (by decide)
    (by decide) (by decide) (Or.inl (by decide))
